import Mathlib

/-!
Shallow embedding of the infographics labeling backend
(`src/backend/main.py`): the in-memory data model (catalog of
infographics plus submitted labels), label-submission validation,
the unlabeled-item query, per-category statistics, catalog loading
and the reset-and-reload operation, together with theorems checking
the specification's claims against these definitions.
-/

/-- A catalog entry (pydantic model `Infographic` in `main.py`). -/
structure Infographic where
  category : String
  title : String
  description : String
  tags : List String
  img_url : String
deriving DecidableEq, Repr

/-- One question/answer dictionary inside a submitted label.  In the
backend the element type is `Dict[str, str]` and only the keys
`"question"` and `"answer"` are ever read, via `dict.get`, which
yields `None` when the key is absent; each field is therefore an
`Option String`. -/
structure QAPair where
  question : Option String
  answer : Option String
deriving DecidableEq, Repr

/-- A submitted label (pydantic model `Label` in `main.py`).  The
`labeled_at` timestamp is kept as an opaque string. -/
structure Label where
  infographic_title : String
  category : String
  tags : List String
  qa_pairs : List QAPair
  labeled_by : String
  labeled_at : String
deriving DecidableEq, Repr

/-- The process-wide store `lifespan_data`: the loaded catalog and the
list of submitted labels. -/
structure AppState where
  infographics : List Infographic
  labels : List Label
deriving DecidableEq, Repr

/-- Outcome of `POST /labels`: the success message, or the HTTP 400
`ValidationError` with its detail string. -/
inductive LabelResp where
  | ok
  | validationError (detail : String)
deriving DecidableEq, Repr

/-- Python truthiness test `not x` for `x` obtained from `dict.get` on
a `Dict[str, str]`: true when the key was absent (`None`) or the value
is the empty string.  A whitespace-only string is truthy. -/
def pyFalsy : Option String → Bool
  | none => true
  | some s => s == ""

/-- The per-pair test in `add_label`:
`if not qa.get("question") or not qa.get("answer")`. -/
def qaPairIncomplete (qa : QAPair) : Bool :=
  pyFalsy qa.question || pyFalsy qa.answer

/-- `POST /labels` (`add_label` in `main.py`): the loop raises HTTP 400
at the first incomplete QA pair; only after the whole loop passes is
the label appended.  The exception propagates before any mutation, so
the failing branch carries the input state unchanged. -/
def add_label (s : AppState) (l : Label) : AppState × LabelResp :=
  if l.qa_pairs.any qaPairIncomplete then
    (s, .validationError "Each QA pair must have both question and answer")
  else
    ({ s with labels := s.labels ++ [l] }, .ok)

/-- `GET /infographics/unlabeled` (`get_unlabeled_infographics` in
`main.py`): the items whose title is not among the
`infographic_title` values of the submitted labels (the Python code
collects those titles into a set; membership in that set coincides
with membership in the list of titles), then — only when the category
query parameter is truthy, i.e. present and non-empty — filtered to
that category.  Both filters preserve catalog order. -/
def get_unlabeled_infographics (s : AppState) (category : Option String) :
    List Infographic :=
  let labeled_titles := s.labels.map (fun l => l.infographic_title)
  let unlabeled :=
    s.infographics.filter (fun info => !(labeled_titles.contains info.title))
  match category with
  | some c => if c == "" then unlabeled
              else unlabeled.filter (fun info => info.category == c)
  | none => unlabeled

/-- `POST /infographics` (`add_infographic` in `main.py`): appends the
item to the catalog; no duplicate-title check is performed. -/
def add_infographic (s : AppState) (i : Infographic) : AppState :=
  { s with infographics := s.infographics ++ [i] }

/-- One per-category record of `GET /category-stats`.  `unlabeled` is
Python integer subtraction `total - labeled`, which can be negative,
hence an `Int`. -/
structure CategoryStat where
  total : Nat
  labeled : Nat
  unlabeled : Int
deriving DecidableEq, Repr

/-- The body of the loop in `get_category_stats` for one category:
`total` counts catalog items of that category, `labeled` counts label
records whose `category` field equals it, `unlabeled` is their
difference. -/
def statsFor (s : AppState) (c : String) : CategoryStat :=
  let total := (s.infographics.filter (fun info => info.category == c)).length
  let labeled := (s.labels.filter (fun l => l.category == c)).length
  { total := total, labeled := labeled,
    unlabeled := (total : Int) - (labeled : Int) }

/-- `GET /category-stats` (`get_category_stats` in `main.py`): one
entry per distinct catalog category (the Python loop iterates over
`set(...)`; the resulting dict is modelled as an association list with
those distinct categories as keys). -/
def get_category_stats (s : AppState) : List (String × CategoryStat) :=
  ((s.infographics.map (fun info => info.category)).dedup).map
    (fun c => (c, statsFor s c))

/-- `GET /reload-data` (`reload_data` in `main.py`): replaces the
catalog with whatever `load_data_from_json` produced (passed here as
an argument, since file access lies outside the embedding) and resets
the label list to empty. -/
def reload_data (_s : AppState) (loaded : List Infographic) : AppState :=
  { infographics := loaded, labels := [] }

/-- A parsed JSON document, used to model `load_data_from_json`. -/
inductive Json where
  | null
  | bool (b : Bool)
  | num (n : Int)
  | str (s : String)
  | arr (elems : List Json)
  | obj (fields : List (String × Json))
deriving Repr

/-- Subscripting `metadata["metadata"]` in Python: a value when the
document is a dict carrying the key; otherwise — missing key, or the
document is not a dict at all — an exception is raised, modelled as
`none` because the caller catches every exception. -/
def jsonGetKey : Json → String → Option Json
  | .obj fields, k => fields.lookup k
  | _, _ => none

/-- `load_data_from_json` in `main.py`.  The `source` argument is
`none` when opening, reading or JSON-parsing the data file raises;
otherwise it is the parsed document.  The blanket `except` handler
turns every exception — including the `"metadata"` key lookup — into
the empty list.  On success the value found under `"metadata"` is
returned verbatim: its structure is not validated in any way. -/
def load_data_from_json (source : Option Json) : Json :=
  match source with
  | none => .arr []
  | some doc =>
    match jsonGetKey doc "metadata" with
    | none => .arr []
    | some v => v

/-! ### Shared helper lemmas -/

/-- Characterisation of the Python truthiness test on an optional
string. -/
theorem pyFalsy_iff (o : Option String) :
    pyFalsy o = true ↔ o = none ∨ o = some "" := by
  cases o <;> simp [pyFalsy]

/-- Characterisation of the per-pair validation test. -/
theorem qaPairIncomplete_iff (qa : QAPair) :
    qaPairIncomplete qa = true ↔
      qa.question = none ∨ qa.question = some "" ∨
      qa.answer = none ∨ qa.answer = some "" := by
  simp [qaPairIncomplete, pyFalsy_iff, or_assoc]

/-- Membership in the unlabeled query result: in the catalog, not
referenced by any label, and matching the category filter when that
filter is active (argument present and non-empty). -/
theorem mem_unlabeled_iff (s : AppState) (cat : Option String)
    (i : Infographic) :
    i ∈ get_unlabeled_infographics s cat ↔
      i ∈ s.infographics ∧
      (∀ l ∈ s.labels, l.infographic_title ≠ i.title) ∧
      (∀ c, cat = some c → c ≠ "" → i.category = c) := by
  unfold get_unlabeled_infographics
  cases cat with
  | none =>
    simp [List.mem_filter]
  | some c =>
    by_cases hc : c = ""
    · subst hc
      simp [List.mem_filter]
    · have hc' : (c == "") = false := by simpa using hc
      simp [hc', List.mem_filter]
      aesop

/-- The unlabeled query result is a sublist of the catalog, hence in
catalog order. -/
theorem unlabeled_sublist (s : AppState) (cat : Option String) :
    (get_unlabeled_infographics s cat).Sublist s.infographics := by
  unfold get_unlabeled_infographics
  cases cat with
  | none => exact List.filter_sublist _
  | some c =>
    by_cases hc : (c == "")
    · simp only [hc, if_true]
      exact List.filter_sublist _
    · simp only [hc, if_false, Bool.false_eq_true]
      exact (List.filter_sublist _).trans (List.filter_sublist _)

/-- Looking up a key in an association list built by pairing each key
with a function of it returns that function's value, for any key
occurring in the list. -/
theorem lookup_map_pair {α β : Type} [BEq α] [LawfulBEq α]
    (f : α → β) (keys : List α) (c : α) (hmem : c ∈ keys) :
    (keys.map (fun k => (k, f k))).lookup c = some (f c) := by
  induction keys with
  | nil => cases hmem
  | cons k ks ih =>
    by_cases hk : c = k
    · subst hk
      simp [List.lookup]
    · have hk' : (c == k) = false := by simpa using hk
      have hmem' : c ∈ ks := by
        cases hmem with
        | head => exact absurd rfl hk
        | tail _ h => exact h
      simp [List.lookup, hk']
      exact ih hmem'

/-- A value found by lookup in such an association list is the
function's value at some key. -/
theorem lookup_map_pair_inv {α β : Type} [BEq α]
    (f : α → β) (keys : List α) (c : α) (v : β)
    (h : (keys.map (fun k => (k, f k))).lookup c = some v) :
    ∃ k, v = f k := by
  induction keys with
  | nil => simp [List.lookup] at h
  | cons k ks ih =>
    by_cases hk : (c == k)
    · simp [List.lookup, hk] at h
      exact ⟨k, h.symm⟩
    · have hk' : (c == k) = false := by simpa using hk
      simp [List.lookup, hk'] at h
      exact ih h

/-! ### Concrete fixtures used by counterexamples and witnesses -/

/-- A catalog item of category "Maps" titled "A". -/
def infoA : Infographic :=
  { category := "Maps", title := "A", description := "d1",
    tags := ["t"], img_url := "u1" }

/-- A catalog item of category "Maps" titled "B". -/
def infoB : Infographic :=
  { category := "Maps", title := "B", description := "d2",
    tags := [], img_url := "u2" }

/-- A catalog item of category "x" titled "X". -/
def infoX : Infographic :=
  { category := "x", title := "X", description := "d3",
    tags := [], img_url := "u3" }

/-- A submitted label for item "A" whose qa_pairs list is empty. -/
def emptyQALabel : Label :=
  { infographic_title := "A", category := "Maps", tags := [],
    qa_pairs := [], labeled_by := "user", labeled_at := "t0" }

/-- A submitted label for item "A" with one QA pair whose question is
a single space: blank after trimming but truthy in Python. -/
def blankQALabel : Label :=
  { infographic_title := "A", category := "Maps", tags := [],
    qa_pairs := [{ question := some " ", answer := some "a" }],
    labeled_by := "user", labeled_at := "t0" }

/-- A well-formed submitted label for item "A". -/
def goodQALabel : Label :=
  { infographic_title := "A", category := "Maps", tags := ["t"],
    qa_pairs := [{ question := some "q", answer := some "a" }],
    labeled_by := "user", labeled_at := "t0" }

/-- A submitted label for item "A" with an empty-string question. -/
def badQALabel : Label :=
  { infographic_title := "A", category := "Maps", tags := [],
    qa_pairs := [{ question := some "", answer := some "a" }],
    labeled_by := "user", labeled_at := "t0" }

/-- A second well-formed label for item "A", of category "Maps". -/
def mapsLabelTwo : Label :=
  { infographic_title := "A", category := "Maps", tags := [],
    qa_pairs := [{ question := some "q2", answer := some "a2" }],
    labeled_by := "user", labeled_at := "t1" }

/-! ### C1 -/

/-- C1 counterexample: submitting a label whose qa_pairs sequence is
empty does not fail — the per-pair validation loop is vacuous —
so add_label answers ok and appends the label to the store, contrary
to the claim that it fails with a ValidationError and leaves the store
untouched. -/
theorem add_label_empty_qa_counterexample :
    add_label ⟨[], []⟩ emptyQALabel = (⟨[], [emptyQALabel]⟩, .ok) := by
  decide

/-- C1 (amended): for every state and every submitted label with an
empty qa_pairs sequence, add_label succeeds and appends the label to
the label store; the "at least one valid QA pair" requirement is
enforced only in the presentation layer, not at the store boundary. -/
theorem add_label_empty_qa_succeeds (s : AppState) (l : Label)
    (h : l.qa_pairs = []) :
    add_label s l = ({ s with labels := s.labels ++ [l] }, .ok) := by
  simp [add_label, h]

/-- Witness: the amended C1 theorem applied to a concrete empty-qa
label in the empty state. -/
theorem add_label_empty_qa_succeeds_witness :
    add_label ⟨[infoA], []⟩ emptyQALabel
      = (⟨[infoA], [emptyQALabel]⟩, .ok) := by
  have h := add_label_empty_qa_succeeds ⟨[infoA], []⟩ emptyQALabel rfl
  simpa using h

/-! ### C2 -/

/-- C2 counterexample: a QA pair whose question is a single space —
non-empty but made of whitespace only, hence blank after trimming —
is accepted by add_label and the label is appended: the backend tests
Python truthiness (missing key or empty string), not the trimmed
value. -/
theorem add_label_blank_qa_counterexample :
    (" ").toList.all Char.isWhitespace = true ∧ (" ") ≠ "" ∧
    add_label ⟨[], []⟩ blankQALabel = (⟨[], [blankQALabel]⟩, .ok) := by
  refine ⟨by decide, by decide, by decide⟩

/-- C2 (amended): add_label fails with the ValidationError and leaves
the state unchanged whenever some submitted QA pair has a question or
answer that is missing or is the empty string; and whenever every
pair has both fields present and non-empty — even if whitespace-only —
the submission succeeds and the label is appended.  No pair is ever
silently dropped. -/
theorem add_label_incomplete_pair_iff (s : AppState) (l : Label) :
    ((∃ qa ∈ l.qa_pairs,
        qa.question = none ∨ qa.question = some "" ∨
        qa.answer = none ∨ qa.answer = some "") →
      add_label s l =
        (s, .validationError "Each QA pair must have both question and answer")) ∧
    ((∀ qa ∈ l.qa_pairs,
        (∃ q, qa.question = some q ∧ q ≠ "") ∧
        (∃ a, qa.answer = some a ∧ a ≠ "")) →
      add_label s l = ({ s with labels := s.labels ++ [l] }, .ok)) := by
  constructor
  · intro h
    have hany : l.qa_pairs.any qaPairIncomplete = true := by
      rw [List.any_eq_true]
      obtain ⟨qa, hmem, hq⟩ := h
      exact ⟨qa, hmem, (qaPairIncomplete_iff qa).mpr hq⟩
    simp [add_label, hany]
  · intro h
    have hany : l.qa_pairs.any qaPairIncomplete = false := by
      rw [List.any_eq_false]
      intro qa hmem
      obtain ⟨⟨q, hq, hqne⟩, ⟨a, ha, hane⟩⟩ := h qa hmem
      rw [qaPairIncomplete_iff]
      simp [hq, ha, hqne, hane]
    simp [add_label, hany]

/-- Witness: the amended C2 theorem applied to a concrete well-formed
label, which is accepted and appended. -/
theorem add_label_incomplete_pair_iff_witness :
    add_label ⟨[infoA], []⟩ goodQALabel
      = (⟨[infoA], [goodQALabel]⟩, .ok) := by
  have h := (add_label_incomplete_pair_iff ⟨[infoA], []⟩ goodQALabel).2
  have hpre : ∀ qa ∈ goodQALabel.qa_pairs,
      (∃ q, qa.question = some q ∧ q ≠ "") ∧
      (∃ a, qa.answer = some a ∧ a ≠ "") := by
    intro qa hqa
    simp [goodQALabel] at hqa
    subst hqa
    exact ⟨⟨"q", rfl, by decide⟩, ⟨"a", rfl, by decide⟩⟩
  simpa using h hpre

/-! ### C3 -/

/-- C3 counterexample: with the category argument present but equal to
the empty string, the category filter is skipped (Python `if category:`
truthiness), so an item whose category is "x" — not "" — still appears
in the result, contrary to the claim that a category argument restricts
the result to items of that category. -/
theorem get_unlabeled_empty_category_counterexample :
    get_unlabeled_infographics ⟨[infoX], []⟩ (some "") = [infoX] ∧
    infoX.category ≠ "" := by
  refine ⟨by decide, by decide⟩

/-- C3 (amended): an item appears in the unlabeled query result iff it
is in the catalog and no label's infographic_title equals its title; a
present, non-empty category argument additionally restricts the result
to items of that category, while an empty-string argument is treated
as absent; and the result is a sublist of the catalog, hence preserves
catalog order. -/
theorem get_unlabeled_characterisation (s : AppState) (cat : Option String) :
    (∀ i, i ∈ get_unlabeled_infographics s cat ↔
        i ∈ s.infographics ∧
        (∀ l ∈ s.labels, l.infographic_title ≠ i.title) ∧
        (∀ c, cat = some c → c ≠ "" → i.category = c)) ∧
    (get_unlabeled_infographics s cat).Sublist s.infographics :=
  ⟨fun i => mem_unlabeled_iff s cat i, unlabeled_sublist s cat⟩

/-! ### C4 -/

/-- C4: for every category present in the catalog, the category-stats
entry for it exists, its total counts the catalog items of that
category, and its labeled field counts the label records — not the
distinct labeled items — whose category field equals it. -/
theorem category_stats_counts (s : AppState) (c : String)
    (h : c ∈ s.infographics.map (fun i => i.category)) :
    (get_category_stats s).lookup c =
      some { total := s.infographics.countP (fun i => i.category == c),
             labeled := s.labels.countP (fun l => l.category == c),
             unlabeled :=
               (s.infographics.countP (fun i => i.category == c) : Int)
                 - (s.labels.countP (fun l => l.category == c) : Int) } := by
  have hdedup : c ∈ (s.infographics.map (fun i => i.category)).dedup :=
    List.mem_dedup.mpr h
  rw [get_category_stats, lookup_map_pair (statsFor s) _ c hdedup]
  simp [statsFor, List.countP_eq_length_filter]

/-- Witness: the C4 theorem at a catalog with one "Maps" item carrying
two label records, the labeled count being 2 while the total is 1. -/
theorem category_stats_counts_witness :
    (get_category_stats ⟨[infoA], [goodQALabel, mapsLabelTwo]⟩).lookup "Maps"
      = some { total := 1, labeled := 2, unlabeled := -1 } := by
  have h := category_stats_counts ⟨[infoA], [goodQALabel, mapsLabelTwo]⟩
    "Maps" (by decide)
  exact h.trans (by decide)

/-! ### C5 -/

/-- C5: every entry of the category statistics has its unlabeled field
equal to the exact integer difference total - labeled, with no
clamping, so it is negative exactly when the label-record count
exceeds the item count. -/
theorem category_stats_unlabeled_diff (s : AppState) (c : String)
    (st : CategoryStat)
    (h : (get_category_stats s).lookup c = some st) :
    st.unlabeled = (st.total : Int) - (st.labeled : Int) ∧
    (st.total < st.labeled → st.unlabeled < 0) := by
  rw [get_category_stats] at h
  obtain ⟨k, hk⟩ := lookup_map_pair_inv (statsFor s) _ c st h
  subst hk
  refine ⟨rfl, ?_⟩
  intro hlt
  have : ((statsFor s k).total : Int) < ((statsFor s k).labeled : Int) := by
    exact_mod_cast hlt
  simpa [statsFor] using this

/-- Witness: the C5 theorem at a state whose "Maps" entry has one item
and two label records, whose unlabeled field is the negative value
1 - 2 = -1. -/
theorem category_stats_unlabeled_diff_witness :
    ({ total := 1, labeled := 2, unlabeled := -1 } : CategoryStat).unlabeled
      < 0 := by
  have h := category_stats_unlabeled_diff
    ⟨[infoA], [goodQALabel, mapsLabelTwo]⟩ "Maps"
    { total := 1, labeled := 2, unlabeled := -1 } (by decide)
  exact h.2 (by decide)

/-! ### C6 -/

/-- C6: whenever add_label reports a ValidationError, the returned
state is exactly the input state — catalog and label store unchanged,
with no observable intermediate state. -/
theorem add_label_atomic (s : AppState) (l : Label) (d : String)
    (h : (add_label s l).2 = .validationError d) :
    (add_label s l).1 = s := by
  by_cases hany : l.qa_pairs.any qaPairIncomplete
  · simp [add_label, hany]
  · simp [add_label, hany] at h

/-- Witness: the C6 theorem at a concrete rejected label. -/
theorem add_label_atomic_witness :
    (add_label ⟨[infoX], []⟩ badQALabel).1 = ⟨[infoX], []⟩ :=
  add_label_atomic ⟨[infoX], []⟩ badQALabel
    "Each QA pair must have both question and answer" (by decide)

/-! ### C7 -/

/-- C7: a successful label submission never adds an item to the
unlabeled query result: for any category argument, every item that is
unlabeled after the submission was already unlabeled before it. -/
theorem add_label_unlabeled_monotone (s t : AppState) (l : Label)
    (cat : Option String) (i : Infographic)
    (hok : add_label s l = (t, .ok))
    (hi : i ∈ get_unlabeled_infographics t cat) :
    i ∈ get_unlabeled_infographics s cat := by
  have ht : t = { s with labels := s.labels ++ [l] } := by
    by_cases hany : l.qa_pairs.any qaPairIncomplete
    · simp [add_label, hany] at hok
    · simp [add_label, hany] at hok
      exact hok.symm
  subst ht
  rw [mem_unlabeled_iff] at hi
  rw [mem_unlabeled_iff]
  obtain ⟨hmem, hnl, hcat⟩ := hi
  refine ⟨hmem, ?_, hcat⟩
  intro l' hl'
  exact hnl l' (by simp [hl'])

/-- Witness: the C7 theorem at a concrete two-item catalog where a
label for "A" is submitted and "B" remains unlabeled. -/
theorem add_label_unlabeled_monotone_witness :
    infoB ∈ get_unlabeled_infographics ⟨[infoA, infoB], []⟩ none :=
  add_label_unlabeled_monotone ⟨[infoA, infoB], []⟩
    ⟨[infoA, infoB], [goodQALabel]⟩ goodQALabel none infoB
    (by decide) (by decide)

/-! ### C8 -/

/-- C8: after reset-and-reload the label store is empty and the
unlabeled query with no category argument returns exactly the full new
catalog, in catalog order. -/
theorem reload_clears_labels (s : AppState) (loaded : List Infographic) :
    (reload_data s loaded).labels = [] ∧
    get_unlabeled_infographics (reload_data s loaded) none
      = (reload_data s loaded).infographics := by
  refine ⟨rfl, ?_⟩
  simp [reload_data, get_unlabeled_infographics]

/-! ### C9 -/

/-- C9 counterexample: a structurally invalid source document — its
"metadata" array holds a record with only a title, lacking the
category, description, tags and img_url fields — loads as that
non-empty partial catalog rather than as an empty one, because the
value under "metadata" is passed through without validation. -/
theorem load_data_partial_counterexample :
    load_data_from_json
        (some (.obj [("metadata", .arr [.obj [("title", .str "X")]])]))
      = .arr [.obj [("title", .str "X")]] ∧
    Json.arr [.obj [("title", .str "X")]] ≠ .arr [] := by
  refine ⟨rfl, ?_⟩
  intro h
  simp at h

/-- C9 (amended): the loader never raises; when opening, reading or
parsing the document fails, or the parsed document carries no
"metadata" value (wrong top-level shape or missing key), it returns
the empty list; but a document that does carry a "metadata" value has
that value returned verbatim with no structural validation, so a
malformed catalog is passed through rather than replaced by an empty
one. -/
theorem load_data_fallback (source : Option Json) :
    (source = none → load_data_from_json source = .arr []) ∧
    (∀ doc, source = some doc → jsonGetKey doc "metadata" = none →
        load_data_from_json source = .arr []) ∧
    (∀ doc v, source = some doc → jsonGetKey doc "metadata" = some v →
        load_data_from_json source = v) := by
  refine ⟨?_, ?_, ?_⟩
  · rintro rfl
    rfl
  · rintro doc rfl hdoc
    simp [load_data_from_json, hdoc]
  · rintro doc v rfl hdoc
    simp [load_data_from_json, hdoc]

/-- Witness: the amended C9 theorem at a parsed document with no
"metadata" key, which loads as the empty list. -/
theorem load_data_fallback_witness :
    load_data_from_json (some (.obj [])) = .arr [] :=
  (load_data_fallback (some (.obj []))).2.1 (.obj []) rfl rfl

/-! ### C10 -/

/-- C10: frame conditions of the two mutations — a successful
add_label leaves the catalog unchanged, and add_infographic leaves the
label store unchanged; each mutation touches only its own
collection. -/
theorem mutations_frame (s t : AppState) (l : Label) (i : Infographic)
    (h : add_label s l = (t, .ok)) :
    t.infographics = s.infographics ∧
    (add_infographic s i).labels = s.labels := by
  refine ⟨?_, rfl⟩
  by_cases hany : l.qa_pairs.any qaPairIncomplete
  · simp [add_label, hany] at h
  · simp [add_label, hany] at h
    rw [← h]

/-- Witness: the C10 theorem at a concrete state, label and item. -/
theorem mutations_frame_witness :
    (⟨[infoA, infoB], [goodQALabel]⟩ : AppState).infographics
        = (⟨[infoA, infoB], []⟩ : AppState).infographics ∧
    (add_infographic ⟨[infoA, infoB], []⟩ infoX).labels
        = (⟨[infoA, infoB], []⟩ : AppState).labels :=
  mutations_frame ⟨[infoA, infoB], []⟩ ⟨[infoA, infoB], [goodQALabel]⟩
    goodQALabel infoX (by decide)
